import Mathlib

/-!
Verification of `finance_calculators.py`, a text-menu financial calculator.

Shallow embedding conventions:
* Python floats are idealised as exact numbers: `ℚ` for the input readers,
  the bond-repayment calculator and the bond handler (all of whose arithmetic
  is rational), and `ℝ` for the interest calculators (compound interest uses
  a real-exponent power, `Real.rpow`).
* Python's `float(...)` string parsing is modelled as a parameter
  `parse : String → Option ℚ` (returning `none` where `float` raises
  `ValueError`); the readers' claims hold for every such parser.  For
  concrete runs, `pyFloat` models `float` on the plain decimal literals
  that appear in the scenarios.
* The unbounded `while True:` retry loops consume a list of input lines;
  `none` means the loop never returned on that (finite) input.
-/

/-- Model of Python's `str.strip()`: drop leading and trailing whitespace. -/
def pyStrip (s : String) : String :=
  String.mk (((s.toList.dropWhile Char.isWhitespace).reverse.dropWhile
    Char.isWhitespace).reverse)

/-- Accumulator loop reading a decimal digit string. -/
def digitsValAux : Nat → List Char → Option Nat
  | acc, [] => some acc
  | acc, c :: rest =>
      if c.isDigit then digitsValAux (10 * acc + (c.toNat - 48)) rest else none

/-- Value of a nonempty string of decimal digits. -/
def digitsVal : List Char → Option Nat
  | [] => none
  | cs => digitsValAux 0 cs

/-- Split a character list at the first `'.'`, if any. -/
def splitDot : List Char → List Char × Option (List Char)
  | [] => ([], none)
  | c :: rest =>
      if c = '.' then ([], some rest)
      else
        let p := splitDot rest
        (c :: p.1, p.2)

/-- Model of Python's `float(...)` on plain decimal literals
(`"8"`, `"0.5"`, `"200000"`, ...): a digit string, optionally followed by
`'.'` and a fractional digit string.  Anything else (including strings
containing `'%'` or alphabetic text) yields `none`, as `float` raises
`ValueError` there.  This is a partial model, used only on concrete inputs
where it agrees with Python. -/
def pyFloat (s : String) : Option ℚ :=
  match splitDot s.toList with
  | (w, none) => (digitsVal w).map (fun n => (n : ℚ))
  | (w, some f) =>
      match digitsVal w, digitsVal f with
      | some a, some b => some ((a : ℚ) + (b : ℚ) / (10 : ℚ) ^ f.length)
      | _, _ => none

/-- Model of Python's `int(...)` on a float: truncation toward zero. -/
def pyInt (q : ℚ) : ℤ := if q < 0 then ⌈q⌉ else ⌊q⌋

/-- Embedding of `get_positive_float` (src lines 8–30): repeatedly read a
line; if it parses (`float` does not raise) and the value is `> 0`, return
it together with the unconsumed lines, otherwise print a message and loop. -/
def get_positive_float (parse : String → Option ℚ) :
    List String → Option (ℚ × List String)
  | [] => none
  | line :: rest =>
      match parse line with
      | none => get_positive_float parse rest
      | some value =>
          if value ≤ 0 then get_positive_float parse rest else some (value, rest)

/-- Embedding of `get_interest_rate` (src lines 33–61): strip the line; if it
contains `'%'`, print a hint and loop; otherwise parse it, reject
non-positive values, and return the first valid rate. -/
def get_interest_rate (parse : String → Option ℚ) :
    List String → Option (ℚ × List String)
  | [] => none
  | line :: rest =>
      let rate_input := pyStrip line
      if rate_input.toList.contains '%' then get_interest_rate parse rest
      else
        match parse rate_input with
        | none => get_interest_rate parse rest
        | some rate =>
            if rate ≤ 0 then get_interest_rate parse rest else some (rate, rest)

/-- Embedding of `calculate_simple_interest` (src lines 64–82):
`principal * (1 + (rate / 100) * years)`. -/
noncomputable def calculate_simple_interest (principal rate years : ℝ) : ℝ :=
  principal * (1 + rate / 100 * years)

/-- Embedding of `calculate_compound_interest` (src lines 85–103):
`principal * math.pow(1 + rate / 100, years)`; `math.pow` with a real
exponent and positive base is `Real.rpow`. -/
noncomputable def calculate_compound_interest (principal rate years : ℝ) : ℝ :=
  principal * (1 + rate / 100) ^ years

/-- The denominator `1 - math.pow(1 + monthly_rate, -months)` of the bond
formula (src line 125), with `monthly_rate = (annual_rate / 100) / 12`. -/
def bond_denom (annual_rate : ℚ) (months : ℤ) : ℚ :=
  1 - (1 + annual_rate / 100 / 12) ^ (-months)

/-- Embedding of `calculate_bond_repayment` (src lines 106–127):
`monthly_rate = (annual_rate / 100) / 12`;
`repayment = (monthly_rate * house_value) / (1 - (1 + monthly_rate) ^ (-months))`.
`months` is an integer (the handler passes `int(months)`), so `math.pow` at
this exponent is the integer power `zpow`. -/
def calculate_bond_repayment (house_value annual_rate : ℚ) (months : ℤ) : ℚ :=
  annual_rate / 100 / 12 * house_value / bond_denom annual_rate months

/-- Outcome of one run of the bond handler: the input lines ran out inside a
reader loop, the defensive guard rejected, or `calculate_bond_repayment` was
invoked with the recorded arguments. -/
inductive BondOutcome where
  | noInput : BondOutcome
  | rejected : BondOutcome
  | computed : ℚ → ℚ → ℤ → BondOutcome
deriving DecidableEq

/-- Embedding of `handle_bond` (src lines 163–182): read `house_value` and
`months` with `get_positive_float`, `rate` with `get_interest_rate`; if
`months ≤ 0 or rate ≤ 0`, print an error and return without computing;
otherwise invoke `calculate_bond_repayment(house_value, rate, int(months))`. -/
def handle_bond (parse : String → Option ℚ) (lines : List String) : BondOutcome :=
  match get_positive_float parse lines with
  | none => .noInput
  | some (house_value, rest1) =>
      match get_interest_rate parse rest1 with
      | none => .noInput
      | some (rate, rest2) =>
          match get_positive_float parse rest2 with
          | none => .noInput
          | some (months, _) =>
              if months ≤ 0 ∨ rate ≤ 0 then .rejected
              else .computed house_value rate (pyInt months)

/-- The value `v` is the parsed value of the first line of `lines` that parses
as a float and is positive: the lines split as `bad ++ good :: rest`, every line
of `bad` either fails to parse or parses to a non-positive value, and `good`
parses to `v`.  `rest` is the unconsumed input. -/
def firstValidReturn (parse : String → Option ℚ) (lines : List String)
    (v : ℚ) (rest : List String) : Prop :=
  ∃ bad good, lines = bad ++ good :: rest ∧
    (∀ s ∈ bad, ∀ w, parse s = some w → w ≤ 0) ∧
    parse good = some v

/-! ### Helper lemmas about the bond denominator -/

lemma one_lt_bond_base {R : ℚ} (hR : 0 < R) : 1 < 1 + R / 100 / 12 := by
  have : 0 < R / 100 / 12 := by positivity
  linarith

lemma bond_denom_pos {R : ℚ} (hR : 0 < R) {n : ℤ} (hn : 1 ≤ n) :
    0 < bond_denom R n := by
  have ha : 1 < 1 + R / 100 / 12 := one_lt_bond_base hR
  have h1 : (1 + R / 100 / 12) ^ (-n) < (1 + R / 100 / 12) ^ (0 : ℤ) :=
    zpow_lt_zpow_right₀ ha (by omega)
  rw [zpow_zero] at h1
  unfold bond_denom
  linarith

lemma bond_denom_lt {R : ℚ} (hR : 0 < R) {m n : ℤ} (hmn : m < n) :
    bond_denom R m < bond_denom R n := by
  have ha : 1 < 1 + R / 100 / 12 := one_lt_bond_base hR
  have h1 : (1 + R / 100 / 12) ^ (-n) < (1 + R / 100 / 12) ^ (-m) :=
    zpow_lt_zpow_right₀ ha (by omega)
  unfold bond_denom
  linarith

/-! ### Claim theorems -/

/-- C2: `calculate_simple_interest P R Y` equals `P * (1 + (R/100) * Y)` for
all inputs.  The embedding is a Lean function of its three arguments alone,
so purity and determinism (same inputs, same result) are inherent. -/
theorem calculate_simple_interest_spec (P R Y : ℝ) :
    calculate_simple_interest P R Y = P * (1 + R / 100 * Y) := rfl

/-- C3: `calculate_compound_interest P R Y` equals `P * (1 + R/100) ^ Y`,
where `^` is the real-exponent power (`Real.rpow`); `Y` need not be an
integer. -/
theorem calculate_compound_interest_spec (P R Y : ℝ) :
    calculate_compound_interest P R Y = P * (1 + R / 100) ^ Y := rfl

/-- C4: for integer `months = n ≥ 1`, `calculate_bond_repayment V R n`
equals `(r * V) / (1 - (1 + r) ^ (-n))` with `r = (R/100)/12`. -/
theorem calculate_bond_repayment_spec (V R : ℚ) (n : ℤ) (h : 1 ≤ n) :
    calculate_bond_repayment V R n =
      R / 100 / 12 * V / (1 - (1 + R / 100 / 12) ^ (-n)) := rfl

/-- Witness for C4 at the spec scenario `V = 200000`, `R = 7`, `n = 240`. -/
theorem calculate_bond_repayment_spec_witness :
    calculate_bond_repayment 200000 7 240 =
      7 / 100 / 12 * 200000 / (1 - (1 + 7 / 100 / 12) ^ (-(240 : ℤ))) :=
  calculate_bond_repayment_spec 200000 7 240 (by omega)

/-- C6: the bond repayment is strictly positive for positive house value,
positive rate and at least one month. -/
theorem calculate_bond_repayment_pos (V R : ℚ) (n : ℤ)
    (hV : 0 < V) (hR : 0 < R) (hn : 1 ≤ n) :
    0 < calculate_bond_repayment V R n := by
  unfold calculate_bond_repayment
  have hr : 0 < R / 100 / 12 := by positivity
  exact div_pos (mul_pos hr hV) (bond_denom_pos hR hn)

/-- Witness for C6 at `V = 200000`, `R = 7`, `n = 240`. -/
theorem calculate_bond_repayment_pos_witness :
    0 < calculate_bond_repayment 200000 7 240 :=
  calculate_bond_repayment_pos 200000 7 240 (by norm_num) (by norm_num) (by omega)

/-- C7: holding rate and months fixed, the bond repayment is strictly
increasing in the house value. -/
theorem calculate_bond_repayment_strictMono_house (V1 V2 R : ℚ) (n : ℤ)
    (hV1 : 0 < V1) (hV12 : V1 < V2) (hR : 0 < R) (hn : 1 ≤ n) :
    calculate_bond_repayment V1 R n < calculate_bond_repayment V2 R n := by
  unfold calculate_bond_repayment
  have hr : 0 < R / 100 / 12 := by positivity
  exact (div_lt_div_iff_of_pos_right (bond_denom_pos hR hn)).2
    (mul_lt_mul_of_pos_left hV12 hr)

/-- Witness for C7 at `V1 = 100000 < V2 = 200000`, `R = 7`, `n = 240`. -/
theorem calculate_bond_repayment_strictMono_house_witness :
    calculate_bond_repayment 100000 7 240 < calculate_bond_repayment 200000 7 240 :=
  calculate_bond_repayment_strictMono_house 100000 200000 7 240
    (by norm_num) (by norm_num) (by norm_num) (by omega)

/-- C10: holding house value and rate fixed, the bond repayment is strictly
decreasing in the number of months: a longer term gives a smaller monthly
payment. -/
theorem calculate_bond_repayment_strictAnti_months (V R : ℚ) (m n : ℤ)
    (hV : 0 < V) (hR : 0 < R) (hm : 1 ≤ m) (hmn : m < n) :
    calculate_bond_repayment V R n < calculate_bond_repayment V R m := by
  unfold calculate_bond_repayment
  have hr : 0 < R / 100 / 12 * V := by positivity
  exact (div_lt_div_iff_of_pos_left hr (bond_denom_pos hR (by omega))
    (bond_denom_pos hR hm)).2
    (bond_denom_lt hR hmn)

/-- Witness for C10 at `V = 200000`, `R = 7`, `m = 120 < n = 240`. -/
theorem calculate_bond_repayment_strictAnti_months_witness :
    calculate_bond_repayment 200000 7 240 < calculate_bond_repayment 200000 7 120 :=
  calculate_bond_repayment_strictAnti_months 200000 7 120 240
    (by norm_num) (by norm_num) (by omega) (by omega)

/-- C5: for `P > 0`, `R > 0` and `Y ≥ 1`, compound interest is at least
simple interest, with equality exactly at `Y = 1`; at `Y = 0` the two also
agree. -/
theorem compound_ge_simple_interest (P R Y : ℝ) (hP : 0 < P) (hR : 0 < R)
    (hY : 1 ≤ Y) :
    calculate_simple_interest P R Y ≤ calculate_compound_interest P R Y ∧
    (calculate_compound_interest P R Y = calculate_simple_interest P R Y ↔ Y = 1) ∧
    calculate_compound_interest P R 0 = calculate_simple_interest P R 0 := by
  have hs0 : (0:ℝ) < R / 100 := by positivity
  have hs : (-1:ℝ) ≤ R / 100 := by linarith
  have hkey : 1 + Y * (R / 100) ≤ (1 + R / 100) ^ Y :=
    one_add_mul_self_le_rpow_one_add hs hY
  refine ⟨?_, ⟨?_, ?_⟩, ?_⟩
  · unfold calculate_simple_interest calculate_compound_interest
    have h2 : 1 + R / 100 * Y ≤ (1 + R / 100) ^ Y := by
      calc 1 + R / 100 * Y = 1 + Y * (R / 100) := by ring
      _ ≤ _ := hkey
    exact mul_le_mul_of_nonneg_left h2 hP.le
  · intro heq
    by_contra hne
    have hY1 : 1 < Y := lt_of_le_of_ne hY (fun h => hne h.symm)
    have hstrict : 1 + Y * (R / 100) < (1 + R / 100) ^ Y :=
      one_add_mul_self_lt_rpow_one_add hs (ne_of_gt hs0) hY1
    unfold calculate_simple_interest calculate_compound_interest at heq
    nlinarith [mul_lt_mul_of_pos_left hstrict hP]
  · intro h
    subst h
    unfold calculate_simple_interest calculate_compound_interest
    rw [Real.rpow_one]
    ring
  · unfold calculate_simple_interest calculate_compound_interest
    rw [Real.rpow_zero]
    ring

/-- Witness for C5 at the spec scenario `P = 1000`, `R = 8`, `Y = 5`. -/
theorem compound_ge_simple_interest_witness :
    calculate_simple_interest 1000 8 5 ≤ calculate_compound_interest 1000 8 5 ∧
    (calculate_compound_interest 1000 8 5 = calculate_simple_interest 1000 8 5 ↔
      (5 : ℝ) = 1) ∧
    calculate_compound_interest 1000 8 0 = calculate_simple_interest 1000 8 0 :=
  compound_ge_simple_interest 1000 8 5 (by norm_num) (by norm_num) (by norm_num)

/-- C8: whenever `get_positive_float` returns, the returned value is
strictly positive and is the parsed value of the first input line that
parses as a float and is positive; any number of preceding non-numeric or
non-positive lines is skipped.  This holds for every parse function. -/
theorem get_positive_float_first_valid (parse : String → Option ℚ)
    (lines : List String) (v : ℚ) (rest : List String)
    (h : get_positive_float parse lines = some (v, rest)) :
    0 < v ∧ firstValidReturn parse lines v rest := by
  induction lines with
  | nil => simp [get_positive_float] at h
  | cons line tail ih =>
    rw [get_positive_float] at h
    cases hp : parse line with
    | none =>
      rw [hp] at h
      obtain ⟨hv, bad, good, heq, hbad, hgood⟩ := ih h
      refine ⟨hv, line :: bad, good, by simp [heq], ?_, hgood⟩
      intro s hs w hw
      rcases List.mem_cons.1 hs with rfl | hmem
      · rw [hp] at hw; exact absurd hw (by simp)
      · exact hbad s hmem w hw
    | some w =>
      rw [hp] at h
      dsimp only at h
      by_cases hw : w ≤ 0
      · rw [if_pos hw] at h
        obtain ⟨hv, bad, good, heq, hbad, hgood⟩ := ih h
        refine ⟨hv, line :: bad, good, by simp [heq], ?_, hgood⟩
        intro s hs u hu
        rcases List.mem_cons.1 hs with rfl | hmem
        · rw [hp] at hu
          obtain rfl : w = u := by injection hu
          exact hw
        · exact hbad s hmem u hu
      · rw [if_neg hw] at h
        obtain ⟨rfl, rfl⟩ : w = v ∧ tail = rest := by
          constructor <;> [skip; skip] <;> injection h with h2 <;>
            [exact congrArg Prod.fst h2; exact congrArg Prod.snd h2]
        exact ⟨not_le.1 hw, [], line, rfl, by simp, hp⟩

/-- Witness for C8: on the lines `"abc"`, `"0"`, `"8"` (non-numeric, then
non-positive, then valid) the reader returns `8 > 0`, the first valid
value. -/
theorem get_positive_float_first_valid_witness :
    0 < (8 : ℚ) ∧ firstValidReturn pyFloat ["abc", "0", "8"] 8 [] :=
  get_positive_float_first_valid pyFloat ["abc", "0", "8"] 8 [] (by decide)

/-- C9: `get_interest_rate` re-prompts on (and never returns from) any line
whose stripped form contains `'%'`, even if the rest parses as a positive
number, and returns the parsed value of a `'%'`-free line that parses to a
positive float.  This holds for every parse function. -/
theorem get_interest_rate_percent (parse : String → Option ℚ) :
    (∀ line rest, ((pyStrip line).toList.contains '%') = true →
        get_interest_rate parse (line :: rest) = get_interest_rate parse rest) ∧
    (∀ line rest v, ((pyStrip line).toList.contains '%') = false →
        parse (pyStrip line) = some v → 0 < v →
        get_interest_rate parse (line :: rest) = some (v, rest)) := by
  constructor
  · intro line rest hpct
    rw [get_interest_rate]
    simp only [hpct, if_true]
  · intro line rest v hpct hparse hv
    rw [get_interest_rate]
    simp only [hpct, Bool.false_eq_true, if_false, hparse]
    rw [if_neg (not_le.2 hv)]

/-- Witness for C9: on input `"8%"` the reader re-prompts (its result is the
result on the remaining lines); on input `"8"` it returns `8`. -/
theorem get_interest_rate_percent_witness :
    get_interest_rate pyFloat ["8%", "8"] = get_interest_rate pyFloat ["8"] ∧
    get_interest_rate pyFloat ["8", "x"] = some (8, ["x"]) :=
  ⟨(get_interest_rate_percent pyFloat).1 "8%" ["8"] (by decide),
   (get_interest_rate_percent pyFloat).2 "8" ["x"] 8 (by decide) (by decide)
     (by decide)⟩

/-- C1 fails on the code: `get_positive_float` accepts the months input
`"0.5"` (it is a positive float), the guard checks the untruncated value
`0.5 > 0` and passes, and only then is `int(months) = 0` computed, so
`calculate_bond_repayment` is invoked with `months = 0`, where the
denominator `1 - (1 + monthly_rate)^0` is exactly `0` (a
`ZeroDivisionError` in Python). -/
theorem handle_bond_zero_months_reachable :
    handle_bond pyFloat ["100000", "7", "0.5"] = BondOutcome.computed 100000 7 0 ∧
    bond_denom 7 0 = 0 := by
  constructor
  · simp +decide [handle_bond, get_positive_float, get_interest_rate, pyFloat,
      pyStrip, digitsVal, digitsValAux, splitDot, List.dropWhile,
      Char.isWhitespace, pyInt]
    all_goals norm_num
  · norm_num [bond_denom]
